import Mathlib

/-!
Verification development for the link tool `link_shell.py`.

The Python code is embedded shallowly:

* Python string operations (`in`, `split`, `strip`, `startswith`, slicing,
  `join`) are modelled by executable functions over `List Char`, so every
  concrete run reduces in the kernel.
* The operating system is an explicit oracle (`OS`): `os.path.islink`,
  `os.path.isdir` and `os.path.isfile` never raise in Python, so they are
  total `String → Bool` fields; the calls that can raise (`os.readlink`,
  `os.symlink`, the `ctypes` hard-link call, and the `subprocess.run`
  invocations of `fsutil` and `mklink`) return `Except OSError _`.
* Side effects (message boxes, the link-creation primitives, `ShellExecuteW`
  with the `runas` verb, `sys.exit`) are recorded as an explicit event trace.
* On top of the raw oracle, `FS`/`OS.ofFS` model a healthy OS over abstract
  filesystem state, rendering `fsutil` output the way the real tool formats
  it (one hard-link name per line; `Reparse Tag Value : 0x...` /
  `Substitute Name: ...` lines for reparse points).
-/

/-- Model of Python's substring search on lists of characters:
`listContains p l` is true iff `p` occurs contiguously in `l`
(`p in l` in Python, which is true for empty `p`). -/
def listContains (p : List Char) : List Char → Bool
  | [] => p.isEmpty
  | c :: t => p.isPrefixOf (c :: t) || listContains p t

/-- Python's `pat in s` for strings. -/
def pyContains (s pat : String) : Bool :=
  listContains pat.data s.data

/-- Fuel-driven worker for Python's `str.split(sep)` with a non-empty
separator.  The fuel is always at least `length + 1`, so the fuel-exhaustion
branch is unreachable; it exists only to keep the recursion structural. -/
def pySplitAux (sep : List Char) : Nat → List Char → List Char → List (List Char)
  | 0, l, cur => [cur.reverse ++ l]
  | _ + 1, [], cur => [cur.reverse]
  | fuel + 1, c :: rest, cur =>
    if sep.isPrefixOf (c :: rest) then
      cur.reverse :: pySplitAux sep fuel (rest.drop (sep.length - 1)) []
    else
      pySplitAux sep fuel rest (c :: cur)

/-- Python's `s.split(sep)` for a non-empty separator. -/
def pySplit (s sep : String) : List String :=
  (pySplitAux sep.data (s.data.length + 1) s.data []).map String.mk

/-- Python's `s.strip()` (whitespace stripped from both ends). -/
def pyStrip (s : String) : String :=
  String.mk (((s.data.dropWhile Char.isWhitespace).reverse.dropWhile
    Char.isWhitespace).reverse)

/-- Python's `s.startswith(pre)`. -/
def pyStartswith (s pre : String) : Bool :=
  pre.data.isPrefixOf s.data

/-- Python's `sep.join(parts)`. -/
def pyJoin (sep : String) : List String → String
  | [] => ""
  | [a] => a
  | a :: b :: rest => a ++ sep ++ pyJoin sep (b :: rest)

/-- An exception raised by an OS call, carrying `str(e)`. -/
structure OSError where
  msg : String
deriving DecidableEq

/-- Observable side effects of the embedded functions, in program order. -/
inductive Event where
  /-- `ctypes.windll.kernel32.CreateHardLinkW(target, source, None)` -/
  | callCreateHardLinkW (target source : String)
  /-- `os.symlink(source, target, target_is_directory=flag)` -/
  | callSymlink (source target : String) (target_is_directory : Bool)
  /-- `subprocess.run(["cmd", "/c", mklink /J target source], shell=True)` -/
  | callMklinkJ (target source : String)
  /-- `messagebox.showerror(title, message)` -/
  | showError (title message : String)
  /-- `messagebox.showinfo(title, message)` -/
  | showInfo (title message : String)
  /-- `self.status_var.set(message)` -/
  | setStatus (message : String)
  /-- `ShellExecuteW(None, "runas", file, params, None, 1)` -/
  | shellExecuteRunas (file params : String)
  /-- `sys.exit(code)` -/
  | sysExit (code : Nat)
deriving DecidableEq

/-- Whether an event is an invocation of one of the three OS
link-creation primitives. -/
def Event.isLinkCreationCall : Event → Bool
  | callCreateHardLinkW _ _ => true
  | callSymlink _ _ _ => true
  | callMklinkJ _ _ => true
  | _ => false

/-- The OS oracle seen by `link_shell.py`.  `islink`, `isdir`, `isfile`
never raise in Python (they swallow `OSError`), so they are total; the
other calls may raise. -/
structure OS where
  /-- `os.path.islink` -/
  islink : String → Bool
  /-- `os.path.isdir` -/
  isdir : String → Bool
  /-- `os.path.isfile` -/
  isfile : String → Bool
  /-- `os.readlink` -/
  readlink : String → Except OSError String
  /-- stdout of `subprocess.run(["fsutil", "reparsepoint", "query", path])` -/
  fsutilReparseQuery : String → Except OSError String
  /-- stdout of `subprocess.run(["fsutil", "hardlink", "list", path])` -/
  fsutilHardlinkList : String → Except OSError String
  /-- return value of `CreateHardLinkW(target, source, None)` -/
  createHardLinkW : String → String → Except OSError Int
  /-- `os.symlink(source, target, target_is_directory)` -/
  symlink : String → String → Bool → Except OSError Unit
  /-- returncode of the `mklink /J target source` command -/
  mklinkJ : String → String → Except OSError Int
  /-- `ctypes.windll.shell32.IsUserAnAdmin()` -/
  isUserAnAdmin : Except OSError Bool
  /-- `sys.executable` -/
  executable : String
  /-- `sys.argv` -/
  argv : List String

/-- `is_admin` (link_shell.py lines 21-25): returns the OS answer, and
`False` when the call raises. -/
def is_admin (os : OS) : Bool :=
  match os.isUserAnAdmin with
  | .ok b => b
  | .error _ => false

/-- `run_as_admin` (lines 27-32): when not admin, relaunch
`sys.executable` with `" ".join(sys.argv)` under the `runas` verb and call
`sys.exit(0)`.  Returns the emitted events and whether the process exited. -/
def run_as_admin (os : OS) : List Event × Bool :=
  if is_admin os = false then
    ([Event.shellExecuteRunas os.executable (pyJoin " " os.argv),
      Event.sysExit 0], true)
  else
    ([], false)

/-- `create_hardlink` (lines 35-51).  Returns the Python return value and
the event trace. -/
def create_hardlink (os : OS) (source target : String) : Bool × List Event :=
  if os.isfile source then
    match os.createHardLinkW target source with
    | .ok result =>
      (result != 0, [Event.callCreateHardLinkW target source])
    | .error e =>
      (false, [Event.callCreateHardLinkW target source,
        Event.showError "错误" ("创建硬链接失败: " ++ e.msg)])
  else
    (false, [Event.showError "错误" "硬链接只能用于文件，不能用于目录"])

/-- `create_symlink` (lines 53-69): unconditionally calls `os.symlink`
with the caller-supplied `is_directory` flag (both Python branches pass
`target_is_directory = is_directory`). -/
def create_symlink (os : OS) (source target : String)
    (is_directory : Bool := false) : Bool × List Event :=
  match os.symlink source target is_directory with
  | .ok _ =>
    (true, [Event.callSymlink source target is_directory])
  | .error e =>
    (false, [Event.callSymlink source target is_directory,
      Event.showError "错误" ("创建符号链接失败: " ++ e.msg)])

/-- `create_junction` (lines 71-93). -/
def create_junction (os : OS) (source target : String) : Bool × List Event :=
  if os.isdir source then
    match os.mklinkJ target source with
    | .ok rc =>
      (rc == 0, [Event.callMklinkJ target source])
    | .error e =>
      (false, [Event.callMklinkJ target source,
        Event.showError "错误" ("创建目录联接失败: " ++ e.msg)])
  else
    (false, [Event.showError "错误" "目录联接只能用于目录，不能用于文件"])

/-- The hard-link tail of `is_link` (lines 117-126): when the path is a
regular file, classify as `"硬链接"` iff
`len(result.stdout.strip().split('\n')) > 2`. -/
def hardlinkStep (os : OS) (path : String) : Except OSError (Option String) :=
  if os.isfile path then
    match os.fsutilHardlinkList path with
    | .error e => .error e
    | .ok out =>
      if (pySplit (pyStrip out) "\n").length > 2 then .ok (some "硬链接")
      else .ok none
  else
    .ok none

/-- The body of `is_link`'s `try` block (lines 102-126), before the bare
`except` is applied.  The labels are the Python literals: `"符号链接"`
(symbolic link), `"目录联接"` (junction), `"硬链接"` (hard link). -/
def isLinkE (os : OS) (path : String) : Except OSError (Option String) :=
  if os.islink path then
    .ok (some "符号链接")
  else if os.isdir path then
    match os.fsutilReparseQuery path with
    | .error e => .error e
    | .ok out =>
      if pyContains out "重解析点" || pyContains out "Reparse" then
        .ok (some "目录联接")
      else
        hardlinkStep os path
  else
    hardlinkStep os path

/-- `is_link` (lines 96-128): the `try` body with the bare `except`
returning `None`. -/
def is_link (os : OS) (path : String) : Option String :=
  match isLinkE os path with
  | .ok v => v
  | .error _ => none

/-- One iteration step of the `for line in ...` loop of `get_link_target`
(lines 148-154): on the first line containing `"Substitute Name"` or
`"替代名称"`, return `line.split(':')[-1].strip()` with a leading `\??\`
removed. -/
def substituteTargetOfLines : List String → Option String
  | [] => none
  | line :: rest =>
    if pyContains line "Substitute Name" || pyContains line "替代名称" then
      let target := pyStrip ((pySplit line ":").getLastD "")
      some (if pyStartswith target "\\??\\" then String.mk (target.data.drop 4)
            else target)
    else
      substituteTargetOfLines rest

/-- The body of `get_link_target`'s `try` block (lines 137-156). -/
def getLinkTargetE (os : OS) (path : String) : Except OSError (Option String) :=
  if os.islink path then
    match os.readlink path with
    | .error e => .error e
    | .ok t => .ok (some t)
  else if os.isdir path then
    match os.fsutilReparseQuery path with
    | .error e => .error e
    | .ok out => .ok (substituteTargetOfLines (pySplit out "\n"))
  else
    .ok none

/-- `get_link_target` (lines 131-158): the `try` body with the bare
`except` returning `None`. -/
def get_link_target (os : OS) (path : String) : Option String :=
  match getLinkTargetE os path with
  | .ok v => v
  | .error _ => none

/-- The symlink branch of `main` (lines 475-477), identical to the symlink
branch of `LinkShellApp.create_link` (lines 341-343): the subtype flag is
`os.path.isdir(source)` computed at call time. -/
def main_symlink (os : OS) (source target : String) : Bool × List Event :=
  let is_dir := os.isdir source
  create_symlink os source target is_dir

/-- Result of `LinkShellApp.create_link`: the event trace, whether
`sys.exit` terminated the process, and the final value of the Python
`success` variable (`none` when the method returned before setting it). -/
structure CreateLinkResult where
  events : List Event
  exited : Bool
  success : Option Bool
deriving DecidableEq

/-- `LinkShellApp.create_link` (lines 323-351), with the three GUI fields
passed explicitly.  Python's truthiness test `not source or not target`
is emptiness of the strings. -/
def create_link (os : OS) (source target link_type : String) :
    CreateLinkResult :=
  if source = "" ∨ target = "" then
    ⟨[Event.showError "错误" "请指定源路径和目标路径"], false, none⟩
  else if (link_type = "symlink" ∨ link_type = "junction") ∧ is_admin os = false then
    let ra := run_as_admin os
    ⟨ra.1, ra.2, none⟩
  else
    let r :=
      if link_type = "hardlink" then create_hardlink os source target
      else if link_type = "symlink" then
        create_symlink os source target (os.isdir source)
      else if link_type = "junction" then create_junction os source target
      else (false, [])
    if r.1 then
      ⟨r.2 ++ [Event.setStatus ("成功创建" ++ link_type ++ "链接"),
        Event.showInfo "成功" ("成功创建链接: " ++ target)], false, some true⟩
    else
      ⟨r.2 ++ [Event.setStatus "创建链接失败"], false, some false⟩

/-- Whether the junction test of `is_link` fires for this path: the path
is a directory and the reparse query succeeds with output matching one of
the two substrings. -/
def junctionHit (os : OS) (path : String) : Bool :=
  os.isdir path &&
    (match os.fsutilReparseQuery path with
     | .ok out => pyContains out "重解析点" || pyContains out "Reparse"
     | .error _ => false)

/-- Reparse-point metadata of a directory, as stored by the filesystem:
the reparse tag and the substitute/print name fields.  The mount-point
(junction) tag is `0xA0000003`. -/
structure ReparseData where
  tag : Nat
  substituteName : String
  printName : String
deriving DecidableEq

/-- The Windows mount-point (junction) reparse tag
`IO_REPARSE_TAG_MOUNT_POINT`. -/
def mountPointTag : Nat := 0xA0000003

/-- Per-path filesystem metadata for the healthy-OS model. -/
structure FSEntry where
  islink : Bool
  isdir : Bool
  isfile : Bool
  linkTarget : String
  reparse : Option ReparseData
  hardlinkNames : List String
deriving DecidableEq

/-- Entry of a path with no special metadata. -/
def defaultEntry : FSEntry :=
  ⟨false, false, false, "", none, []⟩

/-- Abstract filesystem state: a total map from paths to metadata. -/
structure FS where
  entries : String → FSEntry

/-- Hexadecimal digit. -/
def hexDigitChar (n : Nat) : Char :=
  if n < 10 then Char.ofNat (48 + n) else Char.ofNat (87 + n)

/-- Fuel-driven hexadecimal rendering (32 digits of fuel cover every
reparse tag). -/
def hexStringAux : Nat → Nat → List Char → List Char
  | 0, _, acc => acc
  | fuel + 1, n, acc =>
    if n < 16 then hexDigitChar n :: acc
    else hexStringAux fuel (n / 16) (hexDigitChar (n % 16) :: acc)

/-- Lower-case hexadecimal rendering of a natural number. -/
def hexString (n : Nat) : String :=
  String.mk (hexStringAux 32 n [])

/-- OS model: stdout of `fsutil reparsepoint query` on a directory, as
the tool formats it — a `Reparse Tag Value : 0x...` header, descriptive
tag lines for a mount point, then the `Substitute Name` / `Print Name`
fields.  A path with no reparse point yields no matching stdout (the
error text goes to stderr). -/
def fsutilReparseStdout : Option ReparseData → String
  | none => ""
  | some d =>
    "Reparse Tag Value : 0x" ++ hexString d.tag ++ "\n" ++
    (if d.tag = mountPointTag then
      "Tag value: Microsoft\nTag value: Name Surrogate\nTag value: Mount Point\n"
    else "") ++
    "Substitute Name:               " ++ d.substituteName ++ "\n" ++
    "Print Name:                    " ++ d.printName ++ "\n"

/-- OS model: stdout of `fsutil hardlink list` — one NTFS link name per
line (the number of lines is the file's link count). -/
def fsutilHardlinkStdout (names : List String) : String :=
  pyJoin "\n" names ++ "\n"

/-- A healthy OS over abstract filesystem state: every query succeeds and
reports the metadata in `fsutil`'s concrete output format.  The creator
primitives and process facts are benign defaults, unused by the
classifier. -/
def OS.ofFS (fs : FS) : OS where
  islink p := (fs.entries p).islink
  isdir p := (fs.entries p).isdir
  isfile p := (fs.entries p).isfile
  readlink p :=
    if (fs.entries p).islink then .ok (fs.entries p).linkTarget
    else .error ⟨"not a link"⟩
  fsutilReparseQuery p := .ok (fsutilReparseStdout (fs.entries p).reparse)
  fsutilHardlinkList p := .ok (fsutilHardlinkStdout (fs.entries p).hardlinkNames)
  createHardLinkW _ _ := .ok 1
  symlink _ _ _ := .ok ()
  mklinkJ _ _ := .ok 0
  isUserAnAdmin := .ok true
  executable := "python.exe"
  argv := ["link_shell.py"]

/-- After `CreateJunction("C:\data\shared", "T")`: the junction `T`
stores the NT-form substitute name `\??\C:\data\shared`. -/
def fsJunction : FS :=
  ⟨fun p =>
    if p = "T" then
      { defaultEntry with
        isdir := true,
        reparse := some ⟨mountPointTag, "\\??\\C:\\data\\shared", "C:\\data\\shared"⟩ }
    else defaultEntry⟩

/-- Two regular files: `f2` has exactly two hard-link names (the state
right after one `CreateHardLink`), `f3` has three. -/
def fsHardlink : FS :=
  ⟨fun p =>
    if p = "f2" then
      { defaultEntry with
        isfile := true,
        hardlinkNames := ["\\data\\report.txt", "\\links\\report_hl.txt"] }
    else if p = "f3" then
      { defaultEntry with
        isfile := true,
        hardlinkNames := ["\\a.txt", "\\b.txt", "\\c.txt"] }
    else defaultEntry⟩

/-- A directory carrying a reparse point whose tag `0x9000001A` (a cloud
sync-root tag) is not the mount-point/junction tag, and which is not a
symbolic link — e.g. a OneDrive-managed folder. -/
def fsCloudDir : FS :=
  ⟨fun p =>
    if p = "d" then
      { defaultEntry with isdir := true, reparse := some ⟨0x9000001A, "", ""⟩ }
    else defaultEntry⟩

/-- An OS on which every raising call raises: used to exercise the bare
`except` handlers. -/
def osQueryFail : OS where
  islink _ := false
  isdir _ := true
  isfile _ := true
  readlink _ := .error ⟨"boom"⟩
  fsutilReparseQuery _ := .error ⟨"boom"⟩
  fsutilHardlinkList _ := .error ⟨"boom"⟩
  createHardLinkW _ _ := .error ⟨"boom"⟩
  symlink _ _ _ := .error ⟨"boom"⟩
  mklinkJ _ _ := .error ⟨"boom"⟩
  isUserAnAdmin := .error ⟨"boom"⟩
  executable := "python.exe"
  argv := ["link_shell.py"]

/-- An OS on which the given source path is neither a file nor a
directory. -/
def osNoSrc : OS :=
  { osQueryFail with isfile := fun _ => false, isdir := fun _ => false }

/-- `str(e)` of a Windows privilege failure of symlink/junction creation. -/
def privMsg : String :=
  "[WinError 1314] A required privilege is not held by the client"

/-- `str(e)` of an unrelated OS failure. -/
def otherMsg : String :=
  "[WinError 183] Cannot create a file when that file already exists"

/-- An OS whose symlink and junction primitives fail for lack of
privilege. -/
def osPrivFail : OS :=
  { osQueryFail with
    symlink := fun _ _ _ => .error ⟨privMsg⟩,
    mklinkJ := fun _ _ => .error ⟨privMsg⟩ }

/-- An OS whose symlink and junction primitives fail for an unrelated
reason. -/
def osOtherFail : OS :=
  { osQueryFail with
    symlink := fun _ _ _ => .error ⟨otherMsg⟩,
    mklinkJ := fun _ _ => .error ⟨otherMsg⟩ }

/-- An OS on which every path is a symbolic link. -/
def osSymOnly : OS :=
  { osQueryFail with islink := fun _ => true }

/-- A non-elevated process about to create a symlink from the command
line. -/
def osNonAdmin : OS :=
  { osQueryFail with
    isUserAnAdmin := .ok false,
    executable := "C:\\Python\\python.exe",
    argv := ["link_shell.py", "--type", "symlink", "--source", "a", "--target", "b"] }

/-- An OS on which the source path does not exist at all but the symlink
primitive succeeds (symlinks may dangle). -/
def osNoSrcOkLink : OS :=
  { osQueryFail with
    islink := fun _ => false,
    isdir := fun _ => false,
    isfile := fun _ => false,
    symlink := fun _ _ _ => .ok () }

/-- Same OS except the source is a regular file: the creator cannot tell
the difference. -/
def osFileOkLink : OS :=
  { osNoSrcOkLink with isfile := fun _ => true }

theorem strdata_append (a b : String) : (a ++ b).data = a.data ++ b.data := rfl

theorem isPrefixOf_append_right (p l r : List Char)
    (h : p.isPrefixOf l = true) : p.isPrefixOf (l ++ r) = true := by
  induction p generalizing l with
  | nil => cases hlr : l ++ r <;> rfl
  | cons a as ih =>
    cases l with
    | nil => simp [List.isPrefixOf] at h
    | cons b bs =>
      simp only [List.cons_append, List.isPrefixOf, Bool.and_eq_true] at h ⊢
      exact ⟨h.1, ih bs h.2⟩

theorem listContains_of_isPrefixOf (p l : List Char)
    (h : p.isPrefixOf l = true) : listContains p l = true := by
  cases l with
  | nil =>
    cases p with
    | nil => rfl
    | cons a as => simp [List.isPrefixOf] at h
  | cons c t => simp [listContains, h]

/-- The rendered reparse query output of any reparse point matches the
classifier's `"Reparse"` substring test. -/
theorem containsReparse_of_some (d : ReparseData) :
    pyContains (fsutilReparseStdout (some d)) "Reparse" = true := by
  unfold pyContains fsutilReparseStdout
  apply listContains_of_isPrefixOf
  simp only [strdata_append, List.append_assoc]
  exact isPrefixOf_append_right _ _ _ (by decide)

theorem junctionHit_isdir (os : OS) (p : String)
    (h : junctionHit os p = true) : os.isdir p = true := by
  unfold junctionHit at h
  simp only [Bool.and_eq_true] at h
  exact h.1

/-- Exhaustive outcomes of the hard-link tail of `is_link`. -/
theorem hardlinkStep_cases (os : OS) (p : String) :
    (hardlinkStep os p = .ok (some "硬链接") ∧ os.isfile p = true)
    ∨ hardlinkStep os p = .ok none
    ∨ ∃ e, hardlinkStep os p = .error e := by
  unfold hardlinkStep
  cases hf : os.isfile p
  · simp
  · cases hq : os.fsutilHardlinkList p with
    | error e => exact Or.inr (Or.inr ⟨e, by simp⟩)
    | ok out =>
      by_cases hn : (pySplit (pyStrip out) "\n").length > 2
      · exact Or.inl ⟨by simp [hn], rfl⟩
      · exact Or.inr (Or.inl (by simp [hn]))

/-- Exhaustive description of `is_link`: the three classification
outcomes and the conditions that produce each. -/
theorem is_link_cases (os : OS) (p : String) :
    (os.islink p = true ∧ is_link os p = some "符号链接")
    ∨ (os.islink p = false ∧ junctionHit os p = true
        ∧ is_link os p = some "目录联接")
    ∨ (os.islink p = false ∧ junctionHit os p = false
        ∧ (os.isfile p = true ∧ is_link os p = some "硬链接"
           ∨ is_link os p = none)) := by
  unfold is_link isLinkE junctionHit
  cases hl : os.islink p
  · cases hd : os.isdir p
    · refine Or.inr (Or.inr ⟨rfl, by simp, ?_⟩)
      rcases hardlinkStep_cases os p with ⟨h1, h2⟩ | h1 | ⟨e, h1⟩
      · simp [h1, h2]
      · simp [h1]
      · simp [h1]
    · cases hq : os.fsutilReparseQuery p with
      | error e => exact Or.inr (Or.inr ⟨rfl, by simp [hq], Or.inr (by simp [hq])⟩)
      | ok out =>
        cases hc : (pyContains out "重解析点" || pyContains out "Reparse")
        · refine Or.inr (Or.inr ⟨rfl, by simp [hq, hc], ?_⟩)
          rcases hardlinkStep_cases os p with ⟨h1, h2⟩ | h1 | ⟨e, h1⟩
          · simp [h1, h2, hq, hc]
          · simp [h1, hq, hc]
          · simp [h1, hq, hc]
        · exact Or.inr (Or.inl ⟨rfl, by simp [hq, hc], by simp [hq, hc]⟩)
  · exact Or.inl ⟨rfl, by simp⟩

set_option maxRecDepth 10000 in
/-- Claim C1 (refuted at the code's own intent): after
`CreateJunction("C:\data\shared", "T")` the reparse metadata of `T`
stores the substitute name `\??\C:\data\shared`, and `is_link` does
classify `T` as a junction — but `get_link_target` returns
`"\data\shared"`, not a path equivalent to `C:\data\shared`:
`line.split(':')[-1]` keeps only the text after the *last* colon, so the
drive letter and the `\??\` prefix are both destroyed and the
`startswith("\??\")` strip never fires. -/
theorem claim_C1_eval :
    is_link (OS.ofFS fsJunction) "T" = some "目录联接"
    ∧ get_link_target (OS.ofFS fsJunction) "T" = some "\\data\\shared"
    ∧ some "\\data\\shared" ≠ some "C:\\data\\shared" :=
  ⟨rfl, rfl, by decide⟩

set_option maxRecDepth 10000 in
/-- Claim C2 (refuted at the code's own intent): a regular file with
exactly two hard-link names — the state right after one successful
`CreateHardLink` — is classified as `None`, because `is_link` demands
`len(stdout.strip().split('\n')) > 2`, i.e. a link count of at least
three; only the three-name file `f3` is reported as a hard link. -/
theorem claim_C2_eval :
    (fsHardlink.entries "f2").hardlinkNames.length = 2
    ∧ is_link (OS.ofFS fsHardlink) "f2" = none
    ∧ is_link (OS.ofFS fsHardlink) "f3" = some "硬链接" :=
  ⟨rfl, rfl, rfl⟩

set_option maxRecDepth 10000 in
/-- Claim C3 counterexample: the directory `d` carries a reparse point
whose tag `0x9000001A` is not the mount-point/junction tag `0xA0000003`
and is not a symbolic link, yet `is_link` classifies it as a junction:
the code only greps the `fsutil` output for `"Reparse"`/`"重解析点"` and
never inspects the tag. -/
theorem claim_C3_counterexample :
    (fsCloudDir.entries "d").islink = false
    ∧ (fsCloudDir.entries "d").reparse = some ⟨0x9000001A, "", ""⟩
    ∧ (0x9000001A : Nat) ≠ mountPointTag
    ∧ is_link (OS.ofFS fsCloudDir) "d" = some "目录联接" :=
  ⟨rfl, rfl, by decide, rfl⟩

/-- Claim C3 as amended: for a non-symlink directory on a healthy OS,
`is_link` answers `"目录联接"` (Junction) exactly when the directory has
*any* reparse-point metadata, regardless of its tag; with no reparse
point it never answers Junction. -/
theorem claim_C3_amended (fs : FS) (p : String)
    (hl : (fs.entries p).islink = false)
    (hd : (fs.entries p).isdir = true) :
    is_link (OS.ofFS fs) p = some "目录联接"
      ↔ ((fs.entries p).reparse).isSome = true := by
  constructor
  · intro h
    cases hr : (fs.entries p).reparse with
    | some d => rfl
    | none =>
      exfalso
      rcases is_link_cases (OS.ofFS fs) p with ⟨h1, h2⟩ | ⟨h1, h2, h3⟩
        | ⟨h1, h2, ⟨hf, h3⟩ | h3⟩
      · exact absurd (h2.symm.trans h) (by decide)
      · unfold junctionHit at h2
        simp only [OS.ofFS, hd, hr, Bool.and_eq_true] at h2
        rw [show fsutilReparseStdout none = "" from rfl,
          show pyContains "" "重解析点" = false from rfl,
          show pyContains "" "Reparse" = false from rfl] at h2
        exact absurd h2.2 (by decide)
      · exact absurd (h3.symm.trans h) (by decide)
      · exact absurd (h3.symm.trans h) (by decide)
  · intro h
    cases hr : (fs.entries p).reparse with
    | none => rw [hr] at h; exact absurd h (by decide)
    | some d =>
      unfold is_link isLinkE
      simp [OS.ofFS, hl, hd, hr, containsReparse_of_some]

set_option maxRecDepth 10000 in
/-- Claim C3 amended, witnessed on the cloud-tagged directory. -/
theorem claim_C3_amended_witness :
    ((fsCloudDir.entries "d").reparse).isSome = true
    ∧ is_link (OS.ofFS fsCloudDir) "d" = some "目录联接" :=
  ⟨rfl, (claim_C3_amended fsCloudDir "d" rfl rfl).mpr rfl⟩

/-- Claim C4: `is_link` and `get_link_target` wrap their bodies in a bare
`except` that returns `None`: whenever the body raises, the caller sees
`None` instead of a propagated exception. -/
theorem claim_C4 (os : OS) (p : String) :
    ((∃ e, isLinkE os p = Except.error e) → is_link os p = none)
    ∧ ((∃ e, getLinkTargetE os p = Except.error e) →
        get_link_target os p = none) := by
  constructor
  · rintro ⟨e, h⟩; unfold is_link; rw [h]
  · rintro ⟨e, h⟩; unfold get_link_target; rw [h]

/-- Claim C4 witnessed on an OS whose `fsutil` queries raise. -/
theorem claim_C4_witness :
    is_link osQueryFail "d" = none ∧ get_link_target osQueryFail "d" = none :=
  ⟨(claim_C4 osQueryFail "d").1 ⟨⟨"boom"⟩, rfl⟩,
   (claim_C4 osQueryFail "d").2 ⟨⟨"boom"⟩, rfl⟩⟩

/-- Claim C5: a non-file source makes `create_hardlink` fail with the
file-only error message and no OS call, and a non-directory source makes
`create_junction` fail with the directory-only error message and no OS
call: the whole trace holds no link-creation primitive. -/
theorem claim_C5 (os : OS) (source target : String) :
    (os.isfile source = false →
      create_hardlink os source target =
        (false, [Event.showError "错误" "硬链接只能用于文件，不能用于目录"])
      ∧ (create_hardlink os source target).2.all
          (fun ev => ! ev.isLinkCreationCall) = true)
    ∧ (os.isdir source = false →
      create_junction os source target =
        (false, [Event.showError "错误" "目录联接只能用于目录，不能用于文件"])
      ∧ (create_junction os source target).2.all
          (fun ev => ! ev.isLinkCreationCall) = true) := by
  constructor
  · intro h
    have he : create_hardlink os source target =
        (false, [Event.showError "错误" "硬链接只能用于文件，不能用于目录"]) := by
      unfold create_hardlink; simp [h]
    exact ⟨he, by rw [he]; rfl⟩
  · intro h
    have he : create_junction os source target =
        (false, [Event.showError "错误" "目录联接只能用于目录，不能用于文件"]) := by
      unfold create_junction; simp [h]
    exact ⟨he, by rw [he]; rfl⟩

/-- Claim C5 witnessed on a source that is neither file nor directory. -/
theorem claim_C5_witness :
    create_hardlink osNoSrc "s" "t" =
      (false, [Event.showError "错误" "硬链接只能用于文件，不能用于目录"])
    ∧ create_junction osNoSrc "s" "t" =
      (false, [Event.showError "错误" "目录联接只能用于目录，不能用于文件"]) :=
  ⟨((claim_C5 osNoSrc "s" "t").1 rfl).1, ((claim_C5 osNoSrc "s" "t").2 rfl).1⟩

/-- Claim C6 counterexample: a privilege failure and an unrelated OS
failure of `create_symlink` / `create_junction` produce the *same*
caller-visible return value `False` — the creators expose no
`InsufficientPrivilege` condition the caller could branch on. -/
theorem claim_C6_counterexample :
    (create_symlink osPrivFail "s" "t" false).1 = false
    ∧ (create_symlink osOtherFail "s" "t" false).1 = false
    ∧ (create_symlink osPrivFail "s" "t" false).1
        = (create_symlink osOtherFail "s" "t" false).1
    ∧ (create_junction osPrivFail "s" "t").1 = false
    ∧ (create_junction osOtherFail "s" "t").1
        = (create_junction osPrivFail "s" "t").1 :=
  ⟨rfl, rfl, rfl, rfl, rfl⟩

/-- Claim C6 as amended: every exception of the underlying OS call —
privilege-related or not — is surfaced identically: return `False` after
a generic message box that merely embeds `str(e)`; no distinguishable
error kind exists (elevation is instead handled preemptively by
`create_link`, which checks `is_admin()` before invoking the creators). -/
theorem claim_C6_amended (os : OS) (s t : String) (d : Bool) (e : OSError) :
    (os.symlink s t d = Except.error e →
      create_symlink os s t d =
        (false, [Event.callSymlink s t d,
          Event.showError "错误" ("创建符号链接失败: " ++ e.msg)]))
    ∧ (os.isdir s = true → os.mklinkJ t s = Except.error e →
      create_junction os s t =
        (false, [Event.callMklinkJ t s,
          Event.showError "错误" ("创建目录联接失败: " ++ e.msg)])) := by
  constructor
  · intro h; unfold create_symlink; rw [h]
  · intro hd h; unfold create_junction; simp [hd, h]

/-- Claim C6 amended, witnessed on the privilege-failing OS. -/
theorem claim_C6_amended_witness :
    create_symlink osPrivFail "s" "t" false =
      (false, [Event.callSymlink "s" "t" false,
        Event.showError "错误" ("创建符号链接失败: " ++ privMsg)])
    ∧ create_junction osPrivFail "s" "t" =
      (false, [Event.callMklinkJ "t" "s",
        Event.showError "错误" ("创建目录联接失败: " ++ privMsg)]) :=
  ⟨(claim_C6_amended osPrivFail "s" "t" false ⟨privMsg⟩).1 rfl,
   (claim_C6_amended osPrivFail "s" "t" false ⟨privMsg⟩).2 rfl rfl⟩

/-- Claim C7: `is_link` tests in a fixed order — a symbolic link is
always and only answered `"符号链接"`; `"目录联接"` requires the symlink
test to have failed and the path to be a directory; `"硬链接"` requires
the symlink test failed, the junction test not to have fired, and the
path to be a regular file; and a path passing none of the tests yields
`none`. -/
theorem claim_C7 (os : OS) (p : String) :
    (os.islink p = true → is_link os p = some "符号链接")
    ∧ (os.islink p = false → is_link os p ≠ some "符号链接")
    ∧ (is_link os p = some "目录联接" →
        os.islink p = false ∧ os.isdir p = true)
    ∧ (is_link os p = some "硬链接" →
        os.islink p = false ∧ os.isfile p = true ∧ junctionHit os p = false)
    ∧ ((os.islink p = false ∧ os.isdir p = false ∧ os.isfile p = false) →
        is_link os p = none) := by
  rcases is_link_cases os p with ⟨h1, h2⟩ | ⟨h1, h2, h3⟩
    | ⟨h1, h2, ⟨hf, h3⟩ | h3⟩
  · refine ⟨fun _ => h2, ?_, ?_, ?_, ?_⟩
    · intro hf; rw [hf] at h1; cases h1
    · intro hj; exact absurd (h2.symm.trans hj) (by decide)
    · intro hh; exact absurd (h2.symm.trans hh) (by decide)
    · rintro ⟨hf, _, _⟩; rw [hf] at h1; cases h1
  · refine ⟨?_, ?_, fun _ => ⟨h1, junctionHit_isdir os p h2⟩, ?_, ?_⟩
    · intro ht; rw [ht] at h1; cases h1
    · intro _ heq; exact absurd (h3.symm.trans heq) (by decide)
    · intro hh; exact absurd (h3.symm.trans hh) (by decide)
    · rintro ⟨_, hd, _⟩
      have := junctionHit_isdir os p h2
      rw [hd] at this; cases this
  · refine ⟨?_, ?_, ?_, fun _ => ⟨h1, hf, h2⟩, ?_⟩
    · intro ht; rw [ht] at h1; cases h1
    · intro _ heq; exact absurd (h3.symm.trans heq) (by decide)
    · intro hj; exact absurd (h3.symm.trans hj) (by decide)
    · rintro ⟨_, _, hff⟩; rw [hff] at hf; cases hf
  · refine ⟨?_, ?_, ?_, ?_, fun _ => h3⟩
    · intro ht; rw [ht] at h1; cases h1
    · intro _ heq; exact absurd (h3.symm.trans heq) (by decide)
    · intro hj; exact absurd (h3.symm.trans hj) (by decide)
    · intro hh; exact absurd (h3.symm.trans hh) (by decide)

/-- Claim C7 witnessed: on an OS where the path is a symbolic link, the
first test wins. -/
theorem claim_C7_witness :
    is_link osSymOnly "x" = some "符号链接" :=
  (claim_C7 osSymOnly "x").1 rfl

/-- Claim C8: `create_symlink`'s first action is always the `os.symlink`
call carrying exactly the caller-supplied subtype flag, and at both call
sites (the `main` command-line branch and the GUI's `create_link`) that
flag is computed as `os.path.isdir(source)` at call time. -/
theorem claim_C8 (os : OS) (s t : String) :
    (∀ d, (create_symlink os s t d).2.head? =
      some (Event.callSymlink s t d))
    ∧ (main_symlink os s t).2.head? =
        some (Event.callSymlink s t (os.isdir s)) := by
  constructor
  · intro d
    cases h : os.symlink s t d <;> simp [create_symlink, h]
  · cases h : os.symlink s t (os.isdir s) <;>
      simp [main_symlink, create_symlink, h]

/-- Claim C9: in `create_link`, a symlink or junction request from a
non-admin process produces exactly a `ShellExecuteW("runas",
sys.executable, " ".join(sys.argv))` relaunch followed by `sys.exit(0)`:
the process exits, no link-creation primitive runs, and the `success`
variable is never set. -/
theorem claim_C9 (os : OS) (s t k : String)
    (hk : k = "symlink" ∨ k = "junction") (ha : is_admin os = false)
    (hs : s ≠ "") (ht : t ≠ "") :
    create_link os s t k =
      ⟨[Event.shellExecuteRunas os.executable (pyJoin " " os.argv),
        Event.sysExit 0], true, none⟩ := by
  unfold create_link
  rw [if_neg (fun h => h.elim hs ht), if_pos ⟨hk, ha⟩]
  simp [run_as_admin, ha]

/-- Claim C9 witnessed on a non-elevated command-line invocation. -/
theorem claim_C9_witness :
    create_link osNonAdmin "a" "b" "symlink" =
      ⟨[Event.shellExecuteRunas "C:\\Python\\python.exe"
          "link_shell.py --type symlink --source a --target b",
        Event.sysExit 0], true, none⟩ :=
  claim_C9 osNonAdmin "a" "b" "symlink" (Or.inl rfl) rfl
    (by decide) (by decide)

/-- Claim C10: `create_symlink` consults nothing about the source — two
OSes agreeing only on the `os.symlink` primitive get identical results —
and whenever the primitive succeeds it returns `True` having done nothing
but that one call, so a dangling link to a nonexistent source is created
without any source-validation failure. -/
theorem claim_C10 (os os2 : OS) (s t : String) (d : Bool) :
    (os.symlink s t d = os2.symlink s t d →
      create_symlink os s t d = create_symlink os2 s t d)
    ∧ (os.symlink s t d = Except.ok () →
      create_symlink os s t d = (true, [Event.callSymlink s t d])) := by
  constructor
  · intro h; unfold create_symlink; rw [h]
  · intro h; unfold create_symlink; rw [h]

/-- Claim C10 witnessed: a nonexistent source and an existing-file source
are indistinguishable to `create_symlink`, which succeeds on both. -/
theorem claim_C10_witness :
    create_symlink osNoSrcOkLink "missing" "t" false
      = create_symlink osFileOkLink "missing" "t" false
    ∧ create_symlink osNoSrcOkLink "missing" "t" false
      = (true, [Event.callSymlink "missing" "t" false]) :=
  ⟨(claim_C10 osNoSrcOkLink osFileOkLink "missing" "t" false).1 rfl,
   (claim_C10 osNoSrcOkLink osFileOkLink "missing" "t" false).2 rfl⟩
